import Mathlib

/-!
Shallow embedding of the shop backend (`main.py`, `schemas.py`).

Conventions of the embedding:
* Python floats are modelled as exact rationals (`ℚ`); Python `round(x, 2)`
  (round half to even) is modelled by `round2`.
* The MongoDB collections (accessed through the thin `database` module,
  which only exposes `find_one` / `update_one` / `insert` style operations
  with no business rules) are modelled as in-memory lists: the `product`
  collection as an association list from id strings to product documents,
  the `order` collection as a list of order documents.
* A raised `HTTPException` or an uncaught Python exception is modelled by
  `Except.error` carrying an `ApiError`; the returned state records the
  mutations performed before the exception was raised.
* Pydantic field constraints (`Field(..., ge=…)` in `schemas.py`) are
  enforced at model construction time, exactly as pydantic does, so a
  constructor that can reject its input is a fallible function.
-/

section
set_option allowUnsafeReducibility true
attribute [semireducible] Rat.add Rat.mul Rat.sub Rat.div Rat.inv Rat.neg
end

/-- A hex digit, as accepted for each character of a BSON ObjectId string. -/
def isHexChar (c : Char) : Bool :=
  c.isDigit || (97 ≤ c.toNat && c.toNat ≤ 102) || (65 ≤ c.toNat && c.toNat ≤ 70)

/-- `ObjectId(s)` succeeds exactly on 24-character hex strings; this models
the `ObjectId(item.product_id)` parse in `main.py` lines 68 and 127. -/
def isValidObjectId (s : String) : Bool :=
  s.length == 24 && s.data.all isHexChar

/-- Round a rational to the nearest integer, ties to even — the semantics of
Python `round` applied to the exact value of a float. `Int.ediv` on the
numerator and (positive) denominator is floor division, so `f = ⌊q⌋`. -/
def roundHalfEven (q : ℚ) : ℤ :=
  let f := Int.ediv q.num q.den
  let r := q - (f : ℚ)
  if r < 1/2 then f
  else if 1/2 < r then f + 1
  else if f % 2 = 0 then f else f + 1

/-- Python `round(x, 2)` on the exact value of `x`. -/
def round2 (q : ℚ) : ℚ :=
  (roundHalfEven (q * 100) : ℚ) / 100

/-- A document of the `product` collection, with the fields of the
`Product` schema (`schemas.py` lines 28-39) plus the store-managed
`updated_at` timestamp (modelled as a natural number). -/
structure ProductDoc where
  title : String
  description : Option String
  price : ℚ
  category : String
  stock : ℤ
  image_url : Option String
  in_stock : Bool
  updated_at : Nat
deriving DecidableEq

/-- An `OrderItem` value (`schemas.py` lines 41-46). -/
structure OrderItemDoc where
  product_id : String
  title : String
  price : ℚ
  quantity : ℤ
  subtotal : ℚ
deriving DecidableEq

/-- An `Order` document (`schemas.py` lines 48-57). -/
structure OrderDoc where
  buyer_name : Option String
  buyer_email : Option String
  items : List OrderItemDoc
  total : ℚ
  status : String
deriving DecidableEq

/-- The database state: the `product` and `order` collections. -/
structure DBState where
  products : List (String × ProductDoc)
  orders : List OrderDoc
deriving DecidableEq

/-- A cart line (`CartItem`, `main.py` lines 51-53): pydantic puts no
constraint on `quantity`, so it is an arbitrary integer. -/
structure CartItem where
  product_id : String
  quantity : ℤ
deriving DecidableEq

/-- The checkout request body (`main.py` lines 55-58). -/
structure CheckoutRequest where
  items : List CartItem
  buyer_name : Option String
  buyer_email : Option String
deriving DecidableEq

/-- The errors the embedded endpoints can surface. -/
inductive ApiError where
  /-- 400 "Invalid product id: {id}" from checkout (`main.py` line 70). -/
  | invalidReference (id : String)
  /-- 404 "Product not found: {id}" from checkout (`main.py` line 73). -/
  | notFound (id : String)
  /-- 400 "Insufficient stock for {title}" (`main.py` line 75). -/
  | insufficientStock (title : String)
  /-- An uncaught pydantic `ValidationError` raised while constructing an
  `OrderItem` or `Order` whose field constraints fail (HTTP 500). -/
  | schemaViolation
  /-- The uncaught `AttributeError` raised at `main.py` line 133 when
  `find_one` returns `None` and `.get` is called on it (HTTP 500). -/
  | attrError
  /-- 400 "Invalid product id" from update_product (`main.py` line 129). -/
  | invalidId
  /-- 400 "No fields to update" (`main.py` line 132). -/
  | noFieldsToUpdate
  /-- 404 "Product not found" (`main.py` line 136). -/
  | productNotFound
deriving DecidableEq

/-- `find_one({"_id": oid})` on the `product` collection: the first entry
whose id matches. -/
def lookupP : List (String × ProductDoc) → String → Option ProductDoc
  | [], _ => none
  | e :: rest, id => if e.1 = id then some e.2 else lookupP rest id

/-- `find_one` on the modelled state. -/
def findProduct (s : DBState) (id : String) : Option ProductDoc :=
  lookupP s.products id

/-- Construction of an `OrderItem` (`main.py` lines 79-85), including the
pydantic field constraints `price ≥ 0`, `quantity ≥ 1`, `subtotal ≥ 0`
(`schemas.py` lines 41-46); a violated constraint raises `ValidationError`. -/
def mkOrderItem (pid title : String) (price : ℚ) (qty : ℤ) (subtotal : ℚ) :
    Except ApiError OrderItemDoc :=
  if price < 0 then Except.error ApiError.schemaViolation
  else if qty < 1 then Except.error ApiError.schemaViolation
  else if subtotal < 0 then Except.error ApiError.schemaViolation
  else Except.ok ⟨pid, title, price, qty, subtotal⟩

/-- One iteration of the checkout validation loop (`main.py` lines 66-85):
parse the id, look the product up, check the stock, and build the frozen
`OrderItem` snapshot with `subtotal = price * quantity`. -/
def lineStep (s : DBState) (item : CartItem) : Except ApiError OrderItemDoc :=
  if isValidObjectId item.product_id = false then
    Except.error (ApiError.invalidReference item.product_id)
  else
    match findProduct s item.product_id with
    | none => Except.error (ApiError.notFound item.product_id)
    | some prod =>
      if prod.stock < item.quantity then
        Except.error (ApiError.insufficientStock prod.title)
      else
        mkOrderItem item.product_id prod.title prod.price item.quantity
          (prod.price * item.quantity)

/-- The checkout validation loop, accumulating the running `total` and the
`order_items` list (kept reversed while looping, as an accumulator). -/
def checkoutGo (s : DBState) :
    List CartItem → ℚ → List OrderItemDoc →
    Except ApiError (List OrderItemDoc × ℚ)
  | [], total, acc => Except.ok (acc.reverse, total)
  | item :: rest, total, acc =>
    match lineStep s item with
    | Except.error e => Except.error e
    | Except.ok oi => checkoutGo s rest (total + oi.subtotal) (oi :: acc)

/-- The read-only validation phase of checkout (`main.py` lines 62-85). -/
def validatePhase (s : DBState) (payload : CheckoutRequest) :
    Except ApiError (List OrderItemDoc × ℚ) :=
  checkoutGo s payload.items 0 []

/-- Whether one cart line passes the whole validation step. -/
def lineOk (s : DBState) (item : CartItem) : Bool :=
  match lineStep s item with
  | Except.ok _ => true
  | Except.error _ => false

/-- `update_one({"_id": oid}, {"$inc": {"stock": -q}, "$set": {"in_stock": True}})`
(`main.py` lines 89-92): an unconditional decrement — no stock check. -/
def applyDecrement (ps : List (String × ProductDoc)) (item : CartItem) :
    List (String × ProductDoc) :=
  ps.map (fun e =>
    if e.1 = item.product_id then
      (e.1, { e.2 with stock := e.2.stock - item.quantity, in_stock := true })
    else e)

/-- The stock-decrement loop of the commit phase (`main.py` lines 87-92). -/
def commitStock (s : DBState) (items : List CartItem) : DBState :=
  { s with products := items.foldl applyDecrement s.products }

/-- Construction of the `Order` document (`main.py` lines 95-101), with the
pydantic constraint `total ≥ 0` (`schemas.py` line 56) and `status = "paid"`. -/
def mkOrder (bn be : Option String) (items : List OrderItemDoc) (total : ℚ) :
    Except ApiError OrderDoc :=
  if total < 0 then Except.error ApiError.schemaViolation
  else Except.ok ⟨bn, be, items, total, "paid"⟩

/-- The side-effecting commit phase of checkout (`main.py` lines 87-103):
decrement the stock for every cart line, then build the `Order` and insert
it with `create_document`. Modelled from the spec: `create_document`
(`database.py`, not under `src/`) inserts exactly one document into the
named collection and returns its new id; per the spec's store adapter it
applies no business rules, so insertion is modelled as appending the order
to the `order` collection. -/
def commitPhase (s : DBState) (payload : CheckoutRequest)
    (orderItems : List OrderItemDoc) (total : ℚ) :
    DBState × Except ApiError ℚ :=
  let s1 := commitStock s payload.items
  match mkOrder payload.buyer_name payload.buyer_email orderItems (round2 total) with
  | Except.error e => (s1, Except.error e)
  | Except.ok ord => ({ s1 with orders := s1.orders ++ [ord] }, Except.ok ord.total)

/-- `POST /checkout` (`main.py` lines 60-103): validation phase, then — only
if every line validated — the commit phase. Returns the possibly-updated
state together with the returned `total` (or the raised error). -/
def checkout (s : DBState) (payload : CheckoutRequest) :
    DBState × Except ApiError ℚ :=
  match validatePhase s payload with
  | Except.error e => (s, Except.error e)
  | Except.ok (orderItems, total) => commitPhase s payload orderItems total

/-- The `ProductUpdate` request body (`main.py` lines 110-117): every field
optional, `none` meaning "not supplied" (pydantic `exclude_unset`). -/
structure ProductUpdate where
  title : Option String := none
  description : Option String := none
  price : Option ℚ := none
  category : Option String := none
  stock : Option ℤ := none
  image_url : Option String := none
  in_stock : Option Bool := none
deriving DecidableEq

/-- Whether `payload.model_dump(exclude_unset=True)` is the empty dict
(`main.py` line 131). -/
def emptyUpdate (u : ProductUpdate) : Bool :=
  u.title.isNone && u.description.isNone && u.price.isNone && u.category.isNone
    && u.stock.isNone && u.image_url.isNone && u.in_stock.isNone

/-- `update_one({"_id": oid}, {"$set": update})` applied to one product
document: each supplied field overwrites the stored one, unset fields are
left untouched, and `updated_at` is overwritten with `ua` (`main.py`
lines 133-134). -/
def applyFields (p : ProductDoc) (u : ProductUpdate) (ua : Nat) : ProductDoc :=
  { title := u.title.getD p.title
    description := match u.description with | some d => some d | none => p.description
    price := u.price.getD p.price
    category := u.category.getD p.category
    stock := u.stock.getD p.stock
    image_url := match u.image_url with | some v => some v | none => p.image_url
    in_stock := u.in_stock.getD p.in_stock
    updated_at := ua }

/-- `PATCH /admin/products/{product_id}` (`main.py` lines 124-137).
`now` is the wall-clock time of the request; as in the source, it is never
consulted — line 133 instead copies the product's existing `updated_at`
back into the update (and, when `find_one` returns `None` because no
product matches the well-formed id, that line raises `AttributeError`
before the `matched_count` check at line 135 can ever produce the 404). -/
def update_product (s : DBState) (now : Nat) (product_id : String)
    (payload : ProductUpdate) : DBState × Except ApiError Bool :=
  if isValidObjectId product_id = false then
    (s, Except.error ApiError.invalidId)
  else if emptyUpdate payload then
    (s, Except.error ApiError.noFieldsToUpdate)
  else
    match lookupP s.products product_id with
    | none => (s, Except.error ApiError.attrError)
    | some prod =>
      let s2 : DBState :=
        { s with
          products := s.products.map (fun e =>
            if e.1 = product_id then (e.1, applyFields e.2 payload prod.updated_at)
            else e) }
      if s.products.any (fun e => decide (e.1 = product_id)) then
        (s2, Except.ok true)
      else
        (s2, Except.error ApiError.productNotFound)

/-- `POST /admin/products` (`main.py` lines 119-122). Modelled from the
spec: `create_document` (`database.py`, not under `src/`) inserts the
document with a store-generated fresh id and no business rules, so
insertion is modelled as appending the entry under the given id. -/
def create_product (s : DBState) (newId : String) (p : ProductDoc) : DBState :=
  { s with products := s.products ++ [(newId, p)] }

/-- The state-mutating operations the system exposes (read-only endpoints
cannot change any document and are omitted). -/
inductive SysOp where
  | checkoutOp (payload : CheckoutRequest)
  | updateOp (now : Nat) (product_id : String) (payload : ProductUpdate)
  | createOp (newId : String) (p : ProductDoc)

/-- The state reached after one operation (errors leave the recorded
partial state, exactly as the endpoint models return it). -/
def stepOp (s : DBState) : SysOp → DBState
  | SysOp.checkoutOp pl => (checkout s pl).1
  | SysOp.updateOp now pid u => (update_product s now pid u).1
  | SysOp.createOp nid p => create_product s nid p

/-- The state reached after a sequence of operations. -/
def runOps (s : DBState) (ops : List SysOp) : DBState :=
  ops.foldl stepOp s

/-- Total quantity the cart requests for the product with id `id`. -/
def cartQty (id : String) (items : List CartItem) : ℤ :=
  ((items.filter (fun it => decide (it.product_id = id))).map
    (fun it => it.quantity)).sum

/-- Whether some cart line references the product with id `id`. -/
def cartRefs (id : String) (items : List CartItem) : Bool :=
  items.any (fun it => decide (it.product_id = id))

/-- A well-formed id present in the sample states. -/
def pidA : String := "aaaaaaaaaaaaaaaaaaaaaaaa"

/-- A second well-formed id present in the sample states. -/
def pidB : String := "bbbbbbbbbbbbbbbbbbbbbbbb"

/-- A well-formed id matching no document in the sample states. -/
def pidMissing : String := "cccccccccccccccccccccccc"

/-- Sample product: the spec scenario product with price 9.99, stock 5. -/
def widgetDoc : ProductDoc :=
  { title := "Widget", description := none, price := 999/100, category := "toys",
    stock := 5, image_url := none, in_stock := true, updated_at := 5 }

/-- Sample product with stock 1. -/
def gadgetDoc : ProductDoc :=
  { title := "Gadget", description := none, price := 10, category := "tools",
    stock := 1, image_url := none, in_stock := false, updated_at := 3 }

/-- Sample database state with two products and one pre-existing order. -/
def sampleState : DBState :=
  { products := [(pidA, widgetDoc), (pidB, gadgetDoc)],
    orders := [⟨some "Old", none, [⟨pidA, "Widget", 999/100, 1, 999/100⟩], 999/100, "paid"⟩] }

/-- Sample checkout payload: two units of the widget. -/
def samplePayload : CheckoutRequest :=
  { items := [⟨pidA, 2⟩], buyer_name := some "Ann", buyer_email := none }

/-- Product used by the concurrency scenario: stock 5, price 10. -/
def raceDoc : ProductDoc :=
  { title := "Widget", description := none, price := 10, category := "toys",
    stock := 5, image_url := none, in_stock := true, updated_at := 0 }

/-- Initial state of the concurrency scenario of spec §8. -/
def raceState : DBState :=
  { products := [(pidA, raceDoc)], orders := [] }

/-- The cart each of the two concurrent checkouts submits: quantity 3. -/
def racePayload : CheckoutRequest :=
  { items := [⟨pidA, 3⟩], buyer_name := none, buyer_email := none }

/-- The interleaved execution in which both checkouts run their read-only
validation phase against `raceState` (both see stock 5 ≥ 3) and then both
run their commit phase, the second on the state the first produced. Each
commit uses the items and total its own validation computed, exactly as
the two-phase code does. -/
def raceFinal : DBState :=
  match validatePhase raceState racePayload with
  | Except.ok (its, total) =>
    (commitPhase ((commitPhase raceState racePayload its total).1)
      racePayload its total).1
  | Except.error _ => raceState

/-! ### Helper lemmas -/

/-- Inversion for a successful `OrderItem` construction: the snapshot is
exactly the supplied fields and the pydantic constraints hold. -/
theorem mkOrderItem_eq_ok {pid title : String} {price : ℚ} {qty : ℤ}
    {subtotal : ℚ} {oi : OrderItemDoc}
    (h : mkOrderItem pid title price qty subtotal = Except.ok oi) :
    oi = ⟨pid, title, price, qty, subtotal⟩ ∧ 0 ≤ price ∧ 1 ≤ qty ∧ 0 ≤ subtotal := by
  unfold mkOrderItem at h
  split at h
  · exact absurd h (by simp)
  · rename_i h1
    split at h
    · exact absurd h (by simp)
    · rename_i h2
      split at h
      · exact absurd h (by simp)
      · rename_i h3
        refine ⟨?_, le_of_not_lt h1, by omega, le_of_not_lt h3⟩
        injection h with h4
        exact h4.symm

/-- Inversion for a successful validation of one cart line. -/
theorem lineStep_eq_ok {s : DBState} {item : CartItem} {oi : OrderItemDoc}
    (h : lineStep s item = Except.ok oi) :
    ∃ prod, isValidObjectId item.product_id = true ∧
      findProduct s item.product_id = some prod ∧
      ¬ prod.stock < item.quantity ∧
      oi = ⟨item.product_id, prod.title, prod.price, item.quantity,
            prod.price * item.quantity⟩ ∧
      oi.subtotal = oi.price * oi.quantity ∧ 0 ≤ oi.subtotal ∧ 1 ≤ oi.quantity := by
  unfold lineStep at h
  split at h
  · exact absurd h (by simp)
  · rename_i hvalid
    split at h
    · exact absurd h (by simp)
    · rename_i prod hfind
      split at h
      · exact absurd h (by simp)
      · rename_i hstock
        obtain ⟨hoi, hp, hq, hs⟩ := mkOrderItem_eq_ok h
        refine ⟨prod, by simpa using hvalid, hfind, hstock, hoi, ?_, ?_, ?_⟩
        · rw [hoi]
        · rw [hoi]; exact hs
        · rw [hoi]; exact hq

/-- Successful runs of the validation loop: the produced items extend the
accumulator, the total is the accumulated sum of the produced subtotals,
and every produced item satisfies `subtotal = price * quantity ≥ 0` with
`quantity ≥ 1`. -/
theorem checkoutGo_eq_ok (s : DBState) (xs : List CartItem) :
    ∀ (t : ℚ) (acc its : List OrderItemDoc) (total : ℚ),
      checkoutGo s xs t acc = Except.ok (its, total) →
      ∃ news, its = acc.reverse ++ news ∧
        total = t + (news.map (fun oi => oi.subtotal)).sum ∧
        ∀ oi ∈ news, oi.subtotal = oi.price * oi.quantity ∧ 0 ≤ oi.subtotal ∧
          1 ≤ oi.quantity := by
  induction xs with
  | nil =>
    intro t acc its total h
    simp only [checkoutGo, Except.ok.injEq, Prod.mk.injEq] at h
    obtain ⟨h1, h2⟩ := h
    exact ⟨[], by rw [← h1]; simp, by rw [← h2]; simp, by simp⟩
  | cons x rest ih =>
    intro t acc its total h
    rcases hls : lineStep s x with e | oi
    · rw [checkoutGo, hls] at h; simp at h
    · rw [checkoutGo, hls] at h
      obtain ⟨news, hits, htot, hprops⟩ := ih (t + oi.subtotal) (oi :: acc) its total h
      obtain ⟨prod, _, _, _, _, hsub, hnn, hq1⟩ := lineStep_eq_ok hls
      refine ⟨oi :: news, ?_, ?_, ?_⟩
      · rw [hits]; simp
      · rw [htot]; simp [add_assoc]
      · intro o ho
        rcases List.mem_cons.mp ho with h1 | h1
        · subst h1; exact ⟨hsub, hnn, hq1⟩
        · exact hprops o h1

/-- `roundHalfEven` of a nonnegative rational is nonnegative. -/
theorem roundHalfEven_nonneg {q : ℚ} (h : 0 ≤ q) : 0 ≤ roundHalfEven q := by
  unfold roundHalfEven
  have hnum : 0 ≤ q.num := Rat.num_nonneg.mpr h
  have hf : 0 ≤ Int.ediv q.num q.den :=
    Int.ediv_nonneg hnum (Int.ofNat_nonneg q.den)
  dsimp only
  split_ifs <;> omega

/-- `round2` of a nonnegative rational is nonnegative. -/
theorem round2_nonneg {q : ℚ} (h : 0 ≤ q) : 0 ≤ round2 q := by
  unfold round2
  have h1 : 0 ≤ roundHalfEven (q * 100) := roundHalfEven_nonneg (by positivity)
  positivity

/-- Unfolding of a checkout whose validation phase failed. -/
theorem checkout_eq_of_error {s : DBState} {pl : CheckoutRequest} {e : ApiError}
    (h : validatePhase s pl = Except.error e) :
    checkout s pl = (s, Except.error e) := by
  unfold checkout; rw [h]

/-- Unfolding of a checkout whose validation phase succeeded with a total
whose rounding is nonnegative: stock is decremented and the order inserted. -/
theorem checkout_eq_of_ok {s : DBState} {pl : CheckoutRequest}
    {its : List OrderItemDoc} {total : ℚ}
    (h : validatePhase s pl = Except.ok (its, total)) (hnn : 0 ≤ round2 total) :
    checkout s pl =
      ({ commitStock s pl.items with
          orders := s.orders ++
            [⟨pl.buyer_name, pl.buyer_email, its, round2 total, "paid"⟩] },
       Except.ok (round2 total)) := by
  have hmk : mkOrder pl.buyer_name pl.buyer_email its (round2 total) =
      Except.ok ⟨pl.buyer_name, pl.buyer_email, its, round2 total, "paid"⟩ := by
    unfold mkOrder; rw [if_neg (not_lt.mpr hnn)]
  unfold checkout commitPhase
  simp only [h, hmk]
  simp [commitStock]

/-- A validated cart always has a nonnegative running total: each accepted
snapshot has `subtotal ≥ 0`. -/
theorem validatePhase_total_nonneg {s : DBState} {pl : CheckoutRequest}
    {its : List OrderItemDoc} {total : ℚ}
    (h : validatePhase s pl = Except.ok (its, total)) : 0 ≤ total := by
  obtain ⟨news, _, htot, hprops⟩ := checkoutGo_eq_ok s pl.items 0 [] its total h
  rw [htot]
  have hsum : 0 ≤ (news.map (fun oi => oi.subtotal)).sum := by
    apply List.sum_nonneg
    intro x hx
    obtain ⟨oi, hoi, rfl⟩ := List.mem_map.mp hx
    exact (hprops oi hoi).2.1
  linarith

/-! ### Claim theorems -/

/-- C1: for every cart that passes validation, the total returned by
checkout equals the total stored in the created order, which equals the
sum of the per-line subtotals rounded to 2 decimal places, and each stored
subtotal equals that line's snapshot price times its quantity. -/
theorem checkout_total_eq_sum_subtotals (s : DBState) (pl : CheckoutRequest)
    (q : ℚ) (h : (checkout s pl).2 = Except.ok q) :
    ∃ ord, ((checkout s pl).1).orders.getLast? = some ord ∧
      q = ord.total ∧
      ord.total = round2 ((ord.items.map (fun oi => oi.subtotal)).sum) ∧
      ∀ oi ∈ ord.items, oi.subtotal = oi.price * oi.quantity := by
  cases hv : validatePhase s pl with
  | error e => rw [checkout_eq_of_error hv] at h; simp at h
  | ok p =>
    obtain ⟨its, total⟩ := p
    have hnn := round2_nonneg (validatePhase_total_nonneg hv)
    obtain ⟨news, hits, htot, hprops⟩ := checkoutGo_eq_ok s pl.items 0 [] its total hv
    rw [checkout_eq_of_ok hv hnn] at h ⊢
    refine ⟨⟨pl.buyer_name, pl.buyer_email, its, round2 total, "paid"⟩,
      by simp [List.getLast?_concat], by simpa using h.symm, ?_, ?_⟩
    · have : its = news := by simpa using hits
      subst this
      simp only []
      rw [htot]
      simp
    · intro oi hoi
      have : its = news := by simpa using hits
      subst this
      exact (hprops oi hoi).1

/-- C1 witness: the spec §8 scenario — price 9.99, quantity 2 — returns
total 19.98, stored as the created order's total. -/
theorem checkout_total_eq_sum_subtotals_witness :
    ∃ ord, ((checkout sampleState samplePayload).1).orders.getLast? = some ord ∧
      (1998/100 : ℚ) = ord.total ∧
      ord.total = round2 ((ord.items.map (fun oi => oi.subtotal)).sum) ∧
      ∀ oi ∈ ord.items, oi.subtotal = oi.price * oi.quantity :=
  checkout_total_eq_sum_subtotals sampleState samplePayload (1998/100) (by rfl)

/-- C2: a checkout failing validation with `InvalidReference`, `NotFound`,
or `InsufficientStock` leaves the database state completely unchanged —
no stock mutation and no order document. -/
theorem checkout_validation_failure_no_side_effects (s : DBState)
    (pl : CheckoutRequest) (e : ApiError)
    (h : (checkout s pl).2 = Except.error e)
    (he : (∃ id, e = ApiError.invalidReference id) ∨
          (∃ id, e = ApiError.notFound id) ∨
          (∃ t, e = ApiError.insufficientStock t)) :
    (checkout s pl).1 = s := by
  cases hv : validatePhase s pl with
  | error e2 => rw [checkout_eq_of_error hv]
  | ok p =>
    obtain ⟨its, total⟩ := p
    have hnn := round2_nonneg (validatePhase_total_nonneg hv)
    rw [checkout_eq_of_ok hv hnn] at h
    simp at h

/-- C2 witness: requesting 2 units of the product with stock 1 fails with
`InsufficientStock` and leaves the sample state untouched. -/
theorem checkout_validation_failure_no_side_effects_witness :
    (checkout sampleState ⟨[⟨pidB, 2⟩], none, none⟩).1 = sampleState :=
  checkout_validation_failure_no_side_effects sampleState ⟨[⟨pidB, 2⟩], none, none⟩
    (ApiError.insufficientStock "Gadget") (by rfl)
    (Or.inr (Or.inr ⟨"Gadget", rfl⟩))

/-- C9: a checkout with an empty cart succeeds with total 0, mutates no
product, and creates exactly one order with no items and status "paid". -/
theorem checkout_empty_cart (s : DBState) (bn be : Option String) :
    checkout s ⟨[], bn, be⟩ =
      ({ s with orders := s.orders ++ [⟨bn, be, [], 0, "paid"⟩] },
       Except.ok 0) := by
  have hv : validatePhase s ⟨[], bn, be⟩ = Except.ok ([], 0) := rfl
  have h0 : round2 0 = 0 := by decide
  rw [checkout_eq_of_ok hv (by rw [h0])]
  simp [commitStock, h0]

/-- If every line before position `i` validates and the line at position
`i` fails with `e`, the whole validation loop fails with `e`. -/
theorem checkoutGo_first_error (s : DBState) :
    ∀ (i : ℕ) (xs : List CartItem) (it : CartItem) (e : ApiError) (t : ℚ)
      (acc : List OrderItemDoc),
      xs.get? i = some it →
      (∀ x ∈ xs.take i, lineOk s x = true) →
      lineStep s it = Except.error e →
      checkoutGo s xs t acc = Except.error e := by
  intro i
  induction i with
  | zero =>
    intro xs it e t acc hget hpre hit
    cases xs with
    | nil => simp at hget
    | cons x rest =>
      have hx : x = it := by simpa using hget
      rw [checkoutGo, hx, hit]
  | succ n ih =>
    intro xs it e t acc hget hpre hit
    cases xs with
    | nil => simp at hget
    | cons x rest =>
      have hx : lineOk s x = true := hpre x (by simp)
      unfold lineOk at hx
      rcases hok : lineStep s x with e2 | oi
      · rw [hok] at hx; simp at hx
      · rw [checkoutGo, hok]
        refine ih rest it e (t + oi.subtotal) (oi :: acc) (by simpa using hget)
          (fun y hy => hpre y ?_) hit
        simp only [List.take_succ_cons, List.mem_cons]
        exact Or.inr hy

/-- If every line before position `i` validates and the line at position
`i` fails with `e`, checkout raises `e` and leaves the state unchanged. -/
theorem checkout_error_of_line {s : DBState} {pl : CheckoutRequest} {i : ℕ}
    {it : CartItem} {e : ApiError}
    (hget : pl.items.get? i = some it)
    (hpre : ∀ x ∈ pl.items.take i, lineOk s x = true)
    (hit : lineStep s it = Except.error e) :
    checkout s pl = (s, Except.error e) :=
  checkout_eq_of_error
    (checkoutGo_first_error s i pl.items it e 0 [] hget hpre hit)

/-- C4: checkout validates cart lines in input order; at the first failing
line, a malformed product id yields `InvalidReference` naming the id, a
well-formed id with no matching product yields `NotFound` naming the id,
and a matching product with stock below the requested quantity yields
`InsufficientStock` naming the product title. -/
theorem checkout_first_error (s : DBState) (pl : CheckoutRequest) (i : ℕ)
    (it : CartItem)
    (hget : pl.items.get? i = some it)
    (hpre : ∀ x ∈ pl.items.take i, lineOk s x = true) :
    (isValidObjectId it.product_id = false →
      checkout s pl = (s, Except.error (ApiError.invalidReference it.product_id))) ∧
    (isValidObjectId it.product_id = true →
      findProduct s it.product_id = none →
      checkout s pl = (s, Except.error (ApiError.notFound it.product_id))) ∧
    (∀ prod, isValidObjectId it.product_id = true →
      findProduct s it.product_id = some prod →
      prod.stock < it.quantity →
      checkout s pl = (s, Except.error (ApiError.insufficientStock prod.title))) := by
  refine ⟨?_, ?_, ?_⟩
  · intro ha
    exact checkout_error_of_line hget hpre (by simp [lineStep, ha])
  · intro hb hfind
    exact checkout_error_of_line hget hpre (by simp [lineStep, hb, hfind])
  · intro prod hb hfind hstock
    exact checkout_error_of_line hget hpre (by simp [lineStep, hb, hfind, hstock])

/-- C4 witness: with the sample catalog, a malformed second-line id, a
missing product, and an oversized quantity each produce the matching error
with the state unchanged. -/
theorem checkout_first_error_witness :
    checkout sampleState ⟨[⟨pidA, 1⟩, ⟨"zz", 1⟩], none, none⟩ =
      (sampleState, Except.error (ApiError.invalidReference "zz")) ∧
    checkout sampleState ⟨[⟨pidMissing, 1⟩], none, none⟩ =
      (sampleState, Except.error (ApiError.notFound pidMissing)) ∧
    checkout sampleState ⟨[⟨pidB, 2⟩], none, none⟩ =
      (sampleState, Except.error (ApiError.insufficientStock "Gadget")) := by
  refine ⟨?_, ?_, ?_⟩
  · exact (checkout_first_error sampleState ⟨[⟨pidA, 1⟩, ⟨"zz", 1⟩], none, none⟩ 1
      ⟨"zz", 1⟩ (by rfl) (by decide)).1 (by decide)
  · exact (checkout_first_error sampleState ⟨[⟨pidMissing, 1⟩], none, none⟩ 0
      ⟨pidMissing, 1⟩ (by rfl) (by simp)).2.1 (by decide) (by rfl)
  · exact (checkout_first_error sampleState ⟨[⟨pidB, 2⟩], none, none⟩ 0
      ⟨pidB, 2⟩ (by rfl) (by simp)).2.2 gadgetDoc (by decide) (by rfl) (by decide)

/-- C10 (amended): a reachable cart line with quantity ≤ 0 referencing an
existing product with nonnegative stock passes the explicit stock check
(`stock < quantity` is false), but the pydantic constraints of the
`OrderItem` snapshot (`quantity ≥ 1`, and `subtotal ≥ 0` for a negative
quantity at positive price) reject the line, so checkout aborts with a
schema `ValidationError` during validation: no stock is ever changed — in
particular never incremented — and no order is created. -/
theorem checkout_nonpositive_qty_schema_error (s : DBState)
    (pl : CheckoutRequest) (i : ℕ) (it : CartItem) (prod : ProductDoc)
    (hget : pl.items.get? i = some it)
    (hpre : ∀ x ∈ pl.items.take i, lineOk s x = true)
    (hq : it.quantity ≤ 0)
    (hvalid : isValidObjectId it.product_id = true)
    (hfind : findProduct s it.product_id = some prod)
    (hstock : 0 ≤ prod.stock) :
    ¬ prod.stock < it.quantity ∧
    checkout s pl = (s, Except.error ApiError.schemaViolation) := by
  have hns : ¬ prod.stock < it.quantity := by omega
  have hred : lineStep s it =
      mkOrderItem it.product_id prod.title prod.price it.quantity
        (prod.price * it.quantity) := by
    simp [lineStep, hvalid, hfind, hns]
  have hit : lineStep s it = Except.error ApiError.schemaViolation := by
    rw [hred]
    unfold mkOrderItem
    by_cases hp : prod.price < 0
    · rw [if_pos hp]
    · rw [if_neg hp, if_pos (show it.quantity < 1 by omega)]
  exact ⟨hns, checkout_error_of_line hget hpre hit⟩

/-- C10 witness: a single line of quantity 0 for the in-stock widget
passes the stock check yet aborts the checkout with a schema error,
leaving the sample state unchanged. -/
theorem checkout_nonpositive_qty_schema_error_witness :
    ¬ widgetDoc.stock < (0 : ℤ) ∧
    checkout sampleState ⟨[⟨pidA, 0⟩], none, none⟩ =
      (sampleState, Except.error ApiError.schemaViolation) :=
  checkout_nonpositive_qty_schema_error sampleState ⟨[⟨pidA, 0⟩], none, none⟩
    0 ⟨pidA, 0⟩ widgetDoc (by rfl) (by simp) (by decide) (by decide) (by rfl)
    (by decide)

/-- C10 counterexample: for a line of quantity −2 on the widget (stock 5,
price 9.99), the claim predicts a successful checkout whose commit
increments the stock by 2; instead the checkout aborts with a schema
`ValidationError`, creating no order and leaving the stock at 5. -/
theorem checkout_negative_qty_counterexample :
    checkout sampleState ⟨[⟨pidA, -2⟩], none, none⟩ =
      (sampleState, Except.error ApiError.schemaViolation) ∧
    (lookupP sampleState.products pidA).map (fun p => p.stock) = some 5 := by
  constructor
  · rfl
  · rfl

/-- Effect of one commit-loop iteration on a lookup: the matching entry
gets its stock decremented by the line quantity and `in_stock` forced to
true; every other entry is untouched. -/
theorem lookupP_applyDecrement (ps : List (String × ProductDoc))
    (item : CartItem) (id : String) :
    lookupP (applyDecrement ps item) id =
      (lookupP ps id).map (fun p =>
        if item.product_id = id then
          { p with stock := p.stock - item.quantity, in_stock := true }
        else p) := by
  induction ps with
  | nil => rfl
  | cons e rest ih =>
    simp only [applyDecrement, List.map_cons] at ih ⊢
    by_cases h1 : e.1 = item.product_id
    · rw [if_pos h1]
      by_cases h2 : e.1 = id
      · have h3 : item.product_id = id := h1.symm.trans h2
        simp [lookupP, h2, h3]
      · simp [lookupP, h2, ih]
    · rw [if_neg h1]
      by_cases h2 : e.1 = id
      · have h3 : ¬ item.product_id = id := fun hc => h1 (h2.trans hc.symm)
        simp [lookupP, h2, h3]
      · simp [lookupP, h2, ih]

/-- Effect of the whole commit loop on a lookup: the stock drops by the
total quantity of the cart lines naming this product, and `in_stock` is
forced to true exactly when some line names it. -/
theorem lookupP_commit (items : List CartItem) :
    ∀ (ps : List (String × ProductDoc)) (id : String) (p : ProductDoc),
      lookupP ps id = some p →
      lookupP (items.foldl applyDecrement ps) id =
        some { p with stock := p.stock - cartQty id items,
                      in_stock := if cartRefs id items then true else p.in_stock } := by
  induction items with
  | nil =>
    intro ps id p h
    simp [cartQty, cartRefs, h]
  | cons it rest ih =>
    intro ps id p h
    simp only [List.foldl_cons]
    by_cases hid : it.product_id = id
    · have h2 : lookupP (applyDecrement ps it) id =
          some { p with stock := p.stock - it.quantity, in_stock := true } := by
        rw [lookupP_applyDecrement, h]
        simp [hid]
      rw [ih (applyDecrement ps it) id _ h2]
      simp [cartQty, cartRefs, List.filter_cons, hid, sub_sub]
    · have h2 : lookupP (applyDecrement ps it) id = some p := by
        rw [lookupP_applyDecrement, h]
        simp [hid]
      rw [ih (applyDecrement ps it) id _ h2]
      simp [cartQty, cartRefs, List.filter_cons, hid]

/-- C5: when every cart line validates, the commit phase decrements each
referenced product's stock by the total requested quantity, forces its
`in_stock` flag to true regardless of the remaining stock, leaves
unreferenced products untouched, and appends exactly one order holding the
accumulated items, the rounded total, and status "paid". -/
theorem checkout_commit_effect (s : DBState) (pl : CheckoutRequest)
    (its : List OrderItemDoc) (total : ℚ)
    (hv : validatePhase s pl = Except.ok (its, total)) :
    (checkout s pl).2 = Except.ok (round2 total) ∧
    ((checkout s pl).1).orders =
      s.orders ++ [⟨pl.buyer_name, pl.buyer_email, its, round2 total, "paid"⟩] ∧
    ∀ id p, findProduct s id = some p →
      findProduct ((checkout s pl).1) id =
        some { p with stock := p.stock - cartQty id pl.items,
                      in_stock := if cartRefs id pl.items then true
                                  else p.in_stock } := by
  have hnn := round2_nonneg (validatePhase_total_nonneg hv)
  rw [checkout_eq_of_ok hv hnn]
  refine ⟨rfl, rfl, ?_⟩
  intro id p h
  exact lookupP_commit pl.items s.products id p h

/-- C5 witness: the spec §8 scenario — after buying 2 widgets the stock
drops from 5 to 3, `in_stock` stays true, and the returned total is the
rounded 19.98. -/
theorem checkout_commit_effect_witness :
    (checkout sampleState samplePayload).2 =
      Except.ok (round2 (999/50)) ∧
    findProduct ((checkout sampleState samplePayload).1) pidA =
      some { widgetDoc with stock := 3, in_stock := true } := by
  have h := checkout_commit_effect sampleState samplePayload
    [⟨pidA, "Widget", 999/100, 2, 999/50⟩] (999/50) (by rfl)
  refine ⟨h.1, ?_⟩
  have h2 := h.2.2 pidA widgetDoc (by rfl)
  rw [h2]
  rfl

/-- C6: `update_product` fails `InvalidReference` on a malformed id and
`ValidationError` on an empty field set, each leaving the state unchanged;
but for a well-formed id matching no product it crashes with the
`AttributeError` of `main.py` line 133 (`find_one(...)` is `None`) instead
of the intended 404 `NotFound` — the state is still unchanged. -/
theorem update_product_failure_modes (s : DBState) (now : Nat) (id : String)
    (u : ProductUpdate) :
    (isValidObjectId id = false →
      update_product s now id u = (s, Except.error ApiError.invalidId)) ∧
    (isValidObjectId id = true → emptyUpdate u = true →
      update_product s now id u = (s, Except.error ApiError.noFieldsToUpdate)) ∧
    (isValidObjectId id = true → emptyUpdate u = false →
      findProduct s id = none →
      update_product s now id u = (s, Except.error ApiError.attrError)) := by
  refine ⟨?_, ?_, ?_⟩
  · intro h
    simp [update_product, h]
  · intro h1 h2
    simp [update_product, h1, h2]
  · intro h1 h2 h3
    unfold findProduct at h3
    simp [update_product, h1, h2, h3]

/-- C6 witness: patching a well-formed id that matches no product (with a
nonempty field set) yields the `AttributeError` crash, not `NotFound`,
and the product collection is unchanged. -/
theorem update_product_failure_modes_witness :
    update_product sampleState 10 pidMissing { price := some 1 } =
      (sampleState, Except.error ApiError.attrError) :=
  (update_product_failure_modes sampleState 10 pidMissing
    { price := some 1 }).2.2 (by decide) (by decide) (by rfl)

/-- C7: a successful `update_product` applies exactly the supplied fields
(here: the price) to the matching product and leaves other products, the
orders, and the unset fields untouched — but it does NOT refresh
`updated_at`: with the request arriving at time 9 it rewrites the stored
`updated_at` with its old value 5. -/
theorem update_product_updated_at_not_refreshed :
    (update_product sampleState 9 pidA { price := some 12 }).2 =
      Except.ok true ∧
    findProduct (update_product sampleState 9 pidA { price := some 12 }).1 pidA =
      some { widgetDoc with price := 12, updated_at := 5 } ∧
    widgetDoc.updated_at = 5 ∧ (5 : Nat) ≠ 9 ∧
    findProduct (update_product sampleState 9 pidA { price := some 12 }).1 pidB =
      some gadgetDoc ∧
    ((update_product sampleState 9 pidA { price := some 12 }).1).orders =
      sampleState.orders := by
  refine ⟨rfl, rfl, rfl, by decide, rfl, rfl⟩

/-- C3: the commit-phase decrement is NOT an atomic conditional operation:
in the interleaving where two checkouts of quantity 3 both validate
against stock 5 and then both commit, both succeed (two orders are
created) and the stock ends at −1; and `applyDecrement` — the model of the
`$inc` update of `main.py` lines 89-92 — decrements a stock of 1 by 3
(to −2) even though 1 < 3, i.e. without any `stock ≥ Q` guard. -/
theorem checkout_unconditional_decrement_negative_stock :
    validatePhase raceState racePayload =
      Except.ok ([⟨pidA, "Widget", 10, 3, 30⟩], 30) ∧
    raceFinal.orders.length = 2 ∧
    (lookupP raceFinal.products pidA).map (fun p => p.stock) = some (-1) ∧
    (lookupP (applyDecrement [(pidA, gadgetDoc)] ⟨pidA, 3⟩) pidA).map
      (fun p => p.stock) = some (-2) := by
  refine ⟨by rfl, by rfl, by rfl, by rfl⟩

/-- `update_product` never touches the `order` collection. -/
theorem update_product_orders (s : DBState) (now : Nat) (pid : String)
    (u : ProductUpdate) :
    ((update_product s now pid u).1).orders = s.orders := by
  unfold update_product
  split
  · rfl
  · split
    · rfl
    · split
      · rfl
      · split <;> rfl

/-- Any single operation can only append to the `order` collection. -/
theorem stepOp_orders_extends (s : DBState) (op : SysOp) :
    ∃ t, (stepOp s op).orders = s.orders ++ t := by
  cases op with
  | checkoutOp pl =>
    cases hv : validatePhase s pl with
    | error e =>
      refine ⟨[], ?_⟩
      rw [stepOp, checkout_eq_of_error hv]
      simp
    | ok p =>
      obtain ⟨its, total⟩ := p
      have hnn := round2_nonneg (validatePhase_total_nonneg hv)
      refine ⟨[⟨pl.buyer_name, pl.buyer_email, its, round2 total, "paid"⟩], ?_⟩
      rw [stepOp, checkout_eq_of_ok hv hnn]
  | updateOp now pid u =>
    exact ⟨[], by rw [stepOp, update_product_orders]; simp⟩
  | createOp nid p =>
    exact ⟨[], by simp [stepOp, create_product]⟩

/-- Any sequence of operations can only append to the `order` collection. -/
theorem runOps_orders_extends (s : DBState) (ops : List SysOp) :
    ∃ t, (runOps s ops).orders = s.orders ++ t := by
  induction ops generalizing s with
  | nil => exact ⟨[], by simp [runOps]⟩
  | cons op rest ih =>
    obtain ⟨t1, h1⟩ := stepOp_orders_extends s op
    obtain ⟨t2, h2⟩ := ih (stepOp s op)
    refine ⟨t1 ++ t2, ?_⟩
    simp only [runOps, List.foldl_cons] at h2 ⊢
    rw [h2, h1, List.append_assoc]

/-- C8: an order, once created, is never mutated by any later operation —
after any sequence of checkouts, product updates, and product creations,
the orders that existed before are still there, unchanged (so the price
and title snapshots stored in their items are frozen even if the
referenced products change). -/
theorem orders_immutable_under_ops (s : DBState) (ops : List SysOp) :
    ((runOps s ops).orders).take s.orders.length = s.orders := by
  obtain ⟨t, h⟩ := runOps_orders_extends s ops
  rw [h]
  exact List.take_left s.orders t
